import Mathlib

/-!
Shallow embedding of the TimeFlip BLE client (`pytimefliplib/async_client.py`).

Byte strings are modelled as `List Nat` (each element a byte value 0..255),
Python's `int.from_bytes` / `int.to_bytes` as explicit fold / recursion on
these lists, and raised exceptions as `Except PyErr` results.  Stateful
methods of `AsyncClient` become explicit functions of a `ClientState`
record; the BLE transport is modelled by passing the bytes a read returns
(or, for `disconnect`, by a record of which transport calls fail).
-/

namespace TimeFlip

/-- Python `int.from_bytes(l, 'big')`. -/
def intFromBytesBE (l : List Nat) : Nat :=
  l.foldl (fun acc b => acc * 256 + b) 0

/-- Python `int.from_bytes(l, 'little')`. -/
def intFromBytesLE (l : List Nat) : Nat :=
  l.foldr (fun b acc => b + acc * 256) 0

/-- Python `n.to_bytes(k, 'big')` (defined for `n < 256 ^ k`, which is when
Python does not raise `OverflowError`). -/
def intToBytesBE : Nat → Nat → List Nat
  | 0, _ => []
  | k + 1, n => intToBytesBE k (n / 256) ++ [n % 256]

/-- Python bytearray slice assignment `l[i:j] = v` (for `i ≤ j ≤ len(l)`):
the slots `i..j-1` are replaced by the whole of `v`, so the array length
changes when `v` has a different length than the slice. -/
def bytearray_slice_assign (l : List Nat) (i j : Nat) (v : List Nat) : List Nat :=
  l.take i ++ v ++ l.drop j

/-- Exceptions raised by the client (`async_client.py` lines 122-149 and the
Python built-ins it lets escape). -/
inductive PyErr where
  | notConnected
  | notLoggedIn
  | transportError
  | commandError
  | valueError
  | attributeError
  | deprecatedFunction
  | unimplementedFunction
  deriving DecidableEq

/-- `AsyncClient.write_command` (lines 416-433): after the frame is written to
`command_input`, the check reads `command_input` back and succeeds exactly when
byte 0 equals the frame's first byte and byte 1 equals `0x02`; without the
check the result is always `True`.  `readback` is what the transport read
returned. -/
def write_command (command readback : List Nat) (check : Bool) : Bool :=
  if check then
    (readback.getD 0 0 == command.getD 0 0) && (readback.getD 1 0 == 2)
  else
    true

/-- `AsyncClient.set_facet_v4` (lines 576-586): the frame built in a 7-slot
bytearray: `command[0] = 0x13`, `command[1] = facet`, `command[2] = mode`,
then `command[3:6] = pomodoro.to_bytes(4, 'big')` (a slice assignment). -/
def set_facet_v4_frame (facet mode pomodoro : Nat) : List Nat :=
  let command := List.replicate 7 0
  let command := command.set 0 0x13
  let command := command.set 1 facet
  let command := command.set 2 mode
  bytearray_slice_assign command 3 6 (intToBytesBE 4 pomodoro)

/-- One 3-byte sub-record of a legacy history block (lines 910-913):
`dxe` is `dx` with byte 2 replaced by `((dx[2] << 6) % 2^8) >> 6`, and the
entry is `(dx[2] >> 2, int.from_bytes(dxe, 'big'), dx)`. -/
def historyV3Sub (dx : List Nat) : Nat × Nat × List Nat :=
  let b2 := dx.getD 2 0
  let dxe := dx.set 2 (((b2 * 64) % 2 ^ 8) / 64)
  (b2 / 4, intFromBytesBE dxe, dx)

/-- The seven sub-records `data[i*3:(i+1)*3]` of one 21-byte legacy history
block (lines 909-913). -/
def historyV3Block (data : List Nat) : List (Nat × Nat × List Nat) :=
  (List.range 7).map (fun i => historyV3Sub ((data.drop (i * 3)).take 3))

/-- The 21-zero-byte sentinel `_21zeros` of `history_v3` (line 896). -/
def TWENTY_ONE_ZEROS : List Nat := List.replicate 21 0

/-- The read loop of `AsyncClient.history_v3` (lines 901-913), with the
successive `command_result` reads passed as a list.  The loop accumulates the
decoded sub-records and keeps `first_pack`, which the source reassigns to
`data[0:2]` on EVERY non-terminal block.  `none` models a read-out in which
the 21-zero sentinel never arrives (the Python loop would keep reading). -/
def history_v3_loop :
    List (List Nat) → List (Nat × Nat × List Nat) → Option (List Nat) →
      Option (List (Nat × Nat × List Nat) × Option (List Nat))
  | [], _, _ => none
  | data :: rest, history_blocks, first_pack =>
    if data = TWENTY_ONE_ZEROS then
      some (history_blocks, first_pack)
    else
      history_v3_loop rest (history_blocks ++ historyV3Block data) (some (data.take 2))

/-- `AsyncClient.history_v3` (lines 894-916): run the read loop, then truncate
to `int.from_bytes(first_pack, 'big')` entries.  `none` also covers the case
in which the very first block is the sentinel, where the Python code crashes
on `int.from_bytes(None, ...)`. -/
def history_v3 (reads : List (List Nat)) : Option (List (Nat × Nat × List Nat)) :=
  match history_v3_loop reads [] none with
  | none => none
  | some (_, none) => none
  | some (history_blocks, some first_pack) =>
    some (history_blocks.take (intFromBytesBE first_pack))

/-- The decode of one current-layout history block, shared verbatim by
`get_history_v4` (lines 641-646) and `get_all_history_v4` (lines 670-675):
`(int.from_bytes(data[0:4], 'big'), data[4], int.from_bytes(data[5:13], 'big'),
int.from_bytes(data[13:18], 'little'))`. -/
def get_history_v4_decode (data : List Nat) : Nat × Nat × Nat × Nat :=
  (intFromBytesBE (data.take 4),
   data.getD 4 0,
   intFromBytesBE ((data.drop 5).take 8),
   intFromBytesLE ((data.drop 13).take 5))

/-- The 17-zero-byte end-of-history sentinel `_17zeros` of
`get_all_history_v4` (line 654). -/
def SEVENTEEN_ZEROS : List Nat := List.replicate 17 0

/-- The loop of `AsyncClient.get_all_history_v4` (lines 658-679), with the
successive `history_data` reads passed as a list.  Each iteration first writes
the request frame `[0x02, event_number(4 bytes, big-endian)]` (recorded in
`writes`), then reads a block; a block whose first 17 bytes are all zero stops
the loop, otherwise the block is decoded and `event_number` is incremented. -/
def get_all_history_v4_loop :
    List (List Nat) → Nat → List (Nat × Nat × Nat × Nat) → List (List Nat) →
      Option (List (Nat × Nat × Nat × Nat) × List (List Nat))
  | [], _, _, _ => none
  | data :: rest, event_number, history_blocks, writes =>
    let writes := writes ++ [2 :: intToBytesBE 4 event_number]
    if data.take 17 = SEVENTEEN_ZEROS then
      some (history_blocks, writes)
    else
      get_all_history_v4_loop rest (event_number + 1)
        (history_blocks ++ [get_history_v4_decode data]) writes

/-- `AsyncClient.get_all_history_v4` (lines 648-681): the loop started with
`event_number = 0` and empty accumulators; the result also reports the request
frames written to `history_data`. -/
def get_all_history_v4 (reads : List (List Nat)) :
    Option (List (Nat × Nat × Nat × Nat) × List (List Nat)) :=
  get_all_history_v4_loop reads 0 [] []

/-- The mutable fields of `AsyncClient` set in `__init__` (lines 184-205).
`facet_callback` records only whether a callback is registered. -/
structure ClientState where
  connected : Bool
  logged : Bool
  facet_callback : Bool
  facet_notify_active : Bool
  event_notify_active : Bool
  history_notify_active : Bool
  paused : Bool
  locked : Bool
  auto_pause_time : Nat
  current_facet_value : Int
  deriving DecidableEq

/-- The state right after `AsyncClient.__init__` (lines 192-205). -/
def initClientState : ClientState where
  connected := false
  logged := false
  facet_callback := false
  facet_notify_active := false
  event_notify_active := false
  history_notify_active := false
  paused := false
  locked := false
  auto_pause_time := 0
  current_facet_value := -1

/-- The dict returned by `get_status_v3` (lines 724-728). -/
structure StatusDict where
  locked : Bool
  paused : Bool
  auto_pause_time : Nat
  deriving DecidableEq

/-- `AsyncClient.get_status_v3` (lines 709-728) applied to the 21-byte
`command_result` read: `is_locked = data[0] == 0x01`, and when locked the
`paused` field is forced to `True` and `auto_pause_time` to `0`; otherwise
they come from `data[1] == 0x01` and `int.from_bytes(data[2:4], 'big')`. -/
def get_status_v3 (data : List Nat) : StatusDict :=
  let is_locked := data.getD 0 0 == 1
  { locked := is_locked
    paused := if is_locked then true else data.getD 1 0 == 1
    auto_pause_time := if is_locked then 0 else intFromBytesBE ((data.drop 2).take 2) }

/-- Lines 393-396 of `setup`: the status dict returned by `get_status` is
copied field-by-field into the cached `paused` / `locked` /
`auto_pause_time`. -/
def setup_cache_status (s : ClientState) (st : StatusDict) : ClientState :=
  { s with paused := st.paused, locked := st.locked, auto_pause_time := st.auto_pause_time }

/-- `AsyncClient.set_paused_v3` (lines 780-798): guarded by `requires_login`;
when `force` or the requested state differs from the cache, the pause command
(`[0x06, 0x01]` or `[0x06, 0x02]`) is written with `check=True`, its boolean
result is DISCARDED, and the cache is set to the requested state. -/
def set_paused_v3 (s : ClientState) (readback : List Nat) (state force : Bool) :
    Except PyErr (ClientState × Bool) :=
  if s.logged = false then Except.error PyErr.notLoggedIn
  else if force || state != s.paused then
    let _went_ok := write_command (if state then [6, 1] else [6, 2]) readback true
    let s2 := { s with paused := state }
    Except.ok (s2, s2.paused)
  else
    Except.ok (s, s.paused)

/-- `AsyncClient.set_lock_v3` (lines 800-818): same shape as `set_paused_v3`
with the lock command (`[0x04, 0x01]` or `[0x04, 0x02]`), `check` left at its
default `True`, and the boolean result of `write_command` again discarded. -/
def set_lock_v3 (s : ClientState) (readback : List Nat) (state force : Bool) :
    Except PyErr (ClientState × Bool) :=
  if s.logged = false then Except.error PyErr.notLoggedIn
  else if force || state != s.locked then
    let _went_ok := write_command (if state then [4, 1] else [4, 2]) readback true
    let s2 := { s with locked := state }
    Except.ok (s2, s2.locked)
  else
    Except.ok (s, s.locked)

/-- `AsyncClient.set_name_v3` (lines 852-863): `name` is the ASCII encoding of
the new name; a name longer than 19 bytes raises `ValueError` before the
command `[0x15, len(name)] + name` is written.  The second component of the
result lists the frames actually written to `command_input`. -/
def set_name_v3 (name readback : List Nat) : Except PyErr Bool × List (List Nat) :=
  if name.length > 19 then (Except.error PyErr.valueError, [])
  else
    let command := 0x15 :: name.length :: name
    (Except.ok (write_command command readback true), [command])

/-- `AsyncClient.set_password_v3` (lines 865-878): `password` is the ASCII
encoding of the new password; a password whose length is not exactly 6 raises
`ValueError` before the command `[0x30] + password` is written.  The second
component of the result lists the frames actually written to
`command_input`. -/
def set_password_v3 (password readback : List Nat) : Except PyErr Bool × List (List Nat) :=
  if password.length ≠ 6 then (Except.error PyErr.valueError, [])
  else
    let command := 0x30 :: password
    (Except.ok (write_command command readback true), [command])

/-- Which transport calls fail during teardown: a `true` field means the
corresponding `stop_notify` / `disconnect` call raises a transport error. -/
structure TransportFaults where
  stop_notify_facet : Bool
  stop_notify_event : Bool
  stop_notify_history : Bool
  transport_disconnect : Bool
  deriving DecidableEq

/-- `AsyncClient.unregister_notify_facet_v3` (lines 703-707): guarded by
`requires_login`, calls `stop_notify` on the facet characteristic (which may
raise a transport error, NOT caught here), then clears the flag. -/
def unregister_notify_facet_v3 (t : TransportFaults) (s : ClientState) :
    Except PyErr ClientState :=
  if s.logged = false then Except.error PyErr.notLoggedIn
  else if t.stop_notify_facet then Except.error PyErr.transportError
  else Except.ok { s with facet_notify_active := false }

/-- `AsyncClient.unregister_notify_event_v4` (lines 624-628): guarded by
`requires_login`, calls `stop_notify` on the event characteristic (which may
raise a transport error, NOT caught here), then clears the flag. -/
def unregister_notify_event_v4 (t : TransportFaults) (s : ClientState) :
    Except PyErr ClientState :=
  if s.logged = false then Except.error PyErr.notLoggedIn
  else if t.stop_notify_event then Except.error PyErr.transportError
  else Except.ok { s with event_notify_active := false }

/-- `AsyncClient.unregister_notify_history_v4` (lines 689-693): guarded by
`requires_login`, calls `stop_notify` on the history characteristic (which may
raise a transport error, NOT caught here), then clears the flag. -/
def unregister_notify_history_v4 (t : TransportFaults) (s : ClientState) :
    Except PyErr ClientState :=
  if s.logged = false then Except.error PyErr.notLoggedIn
  else if t.stop_notify_history then Except.error PyErr.transportError
  else Except.ok { s with history_notify_active := false }

/-- `AsyncClient.disconnect` (lines 252-282): guarded by `requires_connection`;
the three `unregister_notify_*` calls are made OUTSIDE any try/except, so
their errors propagate; only the `stop_notify` for a registered facet callback
and the final transport `disconnect()` are wrapped in try/except blocks that
swallow everything but `KeyboardInterrupt`/`SystemExit`. -/
def disconnect (t : TransportFaults) (s : ClientState) : Except PyErr ClientState :=
  if s.connected = false then Except.error PyErr.notConnected
  else
    match (if s.facet_notify_active then unregister_notify_facet_v3 t s else Except.ok s) with
    | Except.error e => Except.error e
    | Except.ok s =>
      match (if s.event_notify_active then unregister_notify_event_v4 t s else Except.ok s) with
      | Except.error e => Except.error e
      | Except.ok s =>
        match (if s.history_notify_active then unregister_notify_history_v4 t s else Except.ok s) with
        | Except.error e => Except.error e
        | Except.ok s =>
          -- `if self.facet_callback: try: stop_notify(...) except: pass` -- error swallowed
          -- `try: await self.client.disconnect() except: pass` -- error swallowed
          Except.ok s

/-- The public operation names bound to versioned implementations by `setup`
(lines 348-378). -/
inductive OpName where
  | get_status | set_paused | set_lock | set_auto_pause | set_name | set_password
  | get_time | set_time | set_brightness | set_blink_frequency | set_color
  | set_facet | get_facet | get_all_facets | get_event | get_history | get_all_history
  | get_calibration_version | set_calibration_version
  deriving DecidableEq

/-- The concrete methods a public operation can be bound to. -/
inductive ImplFn where
  | get_status_v3 | set_paused_v3 | set_lock_v3 | set_auto_pause_v3
  | set_name_v3 | set_password_v3
  | get_time_v4 | set_time_v4 | set_brightness_v4 | set_blink_frequency_v4
  | set_color_v4 | set_facet_v4 | get_facet_v4 | get_all_facets_v4
  | get_event_v4 | get_history_v4 | get_all_history_v4
  | get_calibration_version_v3 | set_calibration_version_v3
  deriving DecidableEq

/-- What a public operation name resolves to after `setup`: a bound
implementation, the `deprecated_function` stub, or no attribute at all. -/
inductive Binding where
  | bound (fn : ImplFn)
  | deprecatedStub
  | absent
  deriving DecidableEq

/-- The version dispatch of `setup` (lines 348-378): for
`firmware_version >= 3.47` every operation is bound and the two
calibration-version operations point at `deprecated_function`; otherwise ONLY
`get_status`, `get_calibration_version` and `set_calibration_version` are
assigned, and every other attribute in this table is never set. -/
def setup_bindings (fw : ℚ) (op : OpName) : Binding :=
  if fw ≥ 3.47 then
    match op with
    | .get_status => .bound .get_status_v3
    | .set_paused => .bound .set_paused_v3
    | .set_lock => .bound .set_lock_v3
    | .set_auto_pause => .bound .set_auto_pause_v3
    | .set_name => .bound .set_name_v3
    | .set_password => .bound .set_password_v3
    | .get_time => .bound .get_time_v4
    | .set_time => .bound .set_time_v4
    | .set_brightness => .bound .set_brightness_v4
    | .set_blink_frequency => .bound .set_blink_frequency_v4
    | .set_color => .bound .set_color_v4
    | .set_facet => .bound .set_facet_v4
    | .get_facet => .bound .get_facet_v4
    | .get_all_facets => .bound .get_all_facets_v4
    | .get_event => .bound .get_event_v4
    | .get_history => .bound .get_history_v4
    | .get_all_history => .bound .get_all_history_v4
    | .get_calibration_version => .deprecatedStub
    | .set_calibration_version => .deprecatedStub
  else
    match op with
    | .get_status => .bound .get_status_v3
    | .get_calibration_version => .bound .get_calibration_version_v3
    | .set_calibration_version => .bound .set_calibration_version_v3
    | _ => .absent

/-- Calling whatever `setup` bound an attribute to: a bound method is
callable, the `deprecated_function` stub (lines 933-934) raises
`DeprecatedFunctionError`, and a never-assigned attribute raises Python's
`AttributeError` at lookup. -/
def call_binding : Binding → Except PyErr ImplFn
  | .bound fn => Except.ok fn
  | .deprecatedStub => Except.error PyErr.deprecatedFunction
  | .absent => Except.error PyErr.attributeError

/-- Whether calling the binding reaches an implementation instead of
raising. -/
def binding_callable (b : Binding) : Bool :=
  match call_binding b with
  | .ok _ => true
  | .error _ => false

/-- The operations that exist only in the `firmware_version >= 3.47` branch
of `setup`'s dispatch table (lines 357-368). -/
def isV4Only : OpName → Bool
  | .get_time | .set_time | .set_brightness | .set_blink_frequency | .set_color
  | .set_facet | .get_facet | .get_all_facets | .get_event | .get_history
  | .get_all_history => true
  | _ => false

/-! ## Theorems -/

/-- Claim C1.  The claim says `history_v3` truncates the accumulated list to
the 16-bit big-endian count in the first two bytes of the very FIRST
non-terminal block; the code reassigns `first_pack` on every block, so it
truncates to the count from the LAST non-terminal block instead.  On a
read-out of two non-terminal blocks whose first two bytes encode 3 and 5
respectively, followed by the 21-zero sentinel, the code returns 5 entries,
not 3. -/
theorem c1_history_v3_truncates_to_last_block_count :
    (history_v3 [0 :: 3 :: List.replicate 19 0, 0 :: 5 :: List.replicate 19 0,
        List.replicate 21 0]).map List.length = some 5 ∧
    intFromBytesBE ((0 :: 3 :: List.replicate 19 0).take 2) = 3 ∧
    intFromBytesBE ((0 :: 5 :: List.replicate 19 0).take 2) = 5 := by
  decide

/-- Claim C7: `write_command` with `check=True` returns `True` exactly when
the `command_input` read-back has byte 0 equal to the written frame's first
byte and byte 1 equal to `0x02`; any other byte values give `False` (the
function never raises on a mismatch). -/
theorem c7_write_command_check (command readback : List Nat) :
    write_command command readback true = true ↔
      readback.getD 0 0 = command.getD 0 0 ∧ readback.getD 1 0 = 2 := by
  simp [write_command]

/-- Claim C8.  The claim (and the function's own doc comment) says the
`set_facet` frame is exactly 7 bytes `[0x13, facet, mode, p0..p3]`; but the
slice assignment `command[3:6] = pomodoro.to_bytes(4, 'big')` replaces three
slots with four bytes, so the frame written is 8 bytes long, ending in the
stray seventh zero of the original bytearray.  At facet 3, mode 1, pomodoro
limit 1500 the frame is `[0x13, 3, 1, 0, 0, 5, 220, 0]`. -/
theorem c8_set_facet_frame_is_eight_bytes :
    set_facet_v4_frame 3 1 1500 = [0x13, 3, 1, 0, 0, 5, 220, 0] ∧
    (set_facet_v4_frame 3 1 1500).length = 8 ∧
    intToBytesBE 4 1500 = [0, 0, 5, 220] := by
  decide

/-- Claim C9, counterexample: the sub-record `[0x04, 0x00, 0x00]` (here the
second sub-record of a legacy block) decodes to duration
`4 * 2^16 = 2^18`, which is NOT strictly less than `2^18`: the low two bits
of byte 2 are masked into the LAST (least significant) byte, so the other two
bytes keep their big-endian weights `2^16` and `2^8`. -/
theorem c9_duration_exceeds_18_bits_counterexample :
    (historyV3Block (0 :: 7 :: 0 :: 4 :: 0 :: 0 :: List.replicate 15 0)).getD 1 (0, 0, []) =
      (0, 2 ^ 18, [4, 0, 0]) ∧
    ¬ ((historyV3Block (0 :: 7 :: 0 :: 4 :: 0 :: 0 :: List.replicate 15 0)).getD 1
        (0, 0, [])).2.1 < 2 ^ 18 := by
  decide

/-- Claim C9, amended: for a 3-byte sub-record `[b0, b1, b2]` the decoded
facet is `b0b1b2`'s byte 2 shifted right by 2, and the decoded duration is
`b0 * 2^16 + b1 * 2^8 + (b2 mod 4)` — the low 2 bits of byte 2 are masked
into the least significant byte, so the value is bounded by `2^24`, not
`2^18`. -/
theorem c9_legacy_subrecord_decode (b0 b1 b2 : Nat)
    (h0 : b0 < 256) (h1 : b1 < 256) (h2 : b2 < 256) :
    historyV3Sub [b0, b1, b2] =
      (b2 / 4, b0 * 2 ^ 16 + b1 * 2 ^ 8 + b2 % 4, [b0, b1, b2]) ∧
    b0 * 2 ^ 16 + b1 * 2 ^ 8 + b2 % 4 < 2 ^ 24 := by
  constructor
  · show (b2 / 4, intFromBytesBE [b0, b1, ((b2 * 64) % 2 ^ 8) / 64], [b0, b1, b2]) = _
    have h64 : ((b2 * 64) % 2 ^ 8) / 64 = b2 % 4 := by omega
    rw [h64]
    show (b2 / 4, ((0 * 256 + b0) * 256 + b1) * 256 + b2 % 4, [b0, b1, b2]) = _
    refine Prod.ext rfl (Prod.ext ?_ rfl)
    show ((0 * 256 + b0) * 256 + b1) * 256 + b2 % 4 = b0 * 2 ^ 16 + b1 * 2 ^ 8 + b2 % 4
    ring
  · omega

/-- Witness for C9's amended theorem at the sub-record `[4, 0, 0]`. -/
theorem c9_legacy_subrecord_decode_witness :
    historyV3Sub [4, 0, 0] = (0, 262144, [4, 0, 0]) ∧ 262144 < 2 ^ 24 :=
  c9_legacy_subrecord_decode 4 0 0 (by decide) (by decide) (by decide)

/-- Claim C10: a name whose ASCII encoding exceeds 19 bytes and a password
whose ASCII encoding is not exactly 6 bytes raise `ValueError` before any
frame is written to the transport (the recorded write list is empty). -/
theorem c10_validation_before_transport (name password readback readback2 : List Nat)
    (hn : name.length > 19) (hp : password.length ≠ 6) :
    set_name_v3 name readback = (Except.error PyErr.valueError, []) ∧
    set_password_v3 password readback2 = (Except.error PyErr.valueError, []) := by
  constructor
  · simp [set_name_v3, hn]
  · simp [set_password_v3, hp]

/-- Witness for C10 at a 20-byte name and a 5-byte password. -/
theorem c10_validation_before_transport_witness :
    set_name_v3 (List.replicate 20 65) [] = (Except.error PyErr.valueError, []) ∧
    set_password_v3 (List.replicate 5 48) [] = (Except.error PyErr.valueError, []) :=
  c10_validation_before_transport (List.replicate 20 65) (List.replicate 5 48) [] []
    (by decide) (by decide)

/-- Helper: running the `get_all_history_v4` loop over any non-terminal
blocks followed by a sentinel block decodes exactly the non-terminal blocks
and writes one request frame per iteration with consecutive counters. -/
theorem get_all_history_v4_loop_spec (blocks : List (List Nat)) :
    ∀ (sentinel : List Nat) (more : List (List Nat))
      (n : Nat) (accE : List (Nat × Nat × Nat × Nat)) (accW : List (List Nat)),
      (∀ b ∈ blocks, b.take 17 ≠ SEVENTEEN_ZEROS) →
      sentinel.take 17 = SEVENTEEN_ZEROS →
      get_all_history_v4_loop (blocks ++ sentinel :: more) n accE accW =
        some (accE ++ blocks.map get_history_v4_decode,
              accW ++ (List.range' n (blocks.length + 1)).map (fun m => 2 :: intToBytesBE 4 m)) := by
  induction blocks with
  | nil =>
    intro sentinel more n accE accW _ hs
    simp [get_all_history_v4_loop, hs]
  | cons b bs ih =>
    intro sentinel more n accE accW hb hs
    have hb0 : b.take 17 ≠ SEVENTEEN_ZEROS := hb b (List.mem_cons_self b bs)
    have hbs : ∀ x ∈ bs, x.take 17 ≠ SEVENTEEN_ZEROS := fun x hx => hb x (List.mem_cons_of_mem b hx)
    rw [List.cons_append]
    show (if b.take 17 = SEVENTEEN_ZEROS then _ else _) = _
    rw [if_neg hb0]
    rw [ih sentinel more (n + 1) (accE ++ [get_history_v4_decode b])
          (accW ++ [2 :: intToBytesBE 4 n]) hbs hs]
    simp [List.range'_succ]

/-- Claim C2: the current-layout decoder reads bytes 0-3 as a big-endian
event number, byte 4 as the facet, bytes 5-12 as a big-endian timestamp and
bytes 13-17 as a LITTLE-endian duration; and `get_all_history_v4` issues one
`[0x02, counter(4 bytes, big-endian)]` request per read with the counter
starting at 0 and incremented by 1, stops at the first block whose first 17
bytes are all zero, and returns only the blocks before it. -/
theorem c2_get_all_history_v4_spec
    (d0 d1 d2 d3 d4 d5 d6 d7 d8 d9 d10 d11 d12 d13 d14 d15 d16 d17 : Nat) (ds : List Nat)
    (blocks : List (List Nat)) (sentinel : List Nat) (more : List (List Nat))
    (hb : ∀ b ∈ blocks, b.take 17 ≠ SEVENTEEN_ZEROS)
    (hs : sentinel.take 17 = SEVENTEEN_ZEROS) :
    get_history_v4_decode
        (d0::d1::d2::d3::d4::d5::d6::d7::d8::d9::d10::d11::d12::d13::d14::d15::d16::d17::ds) =
      (d0 * 2 ^ 24 + d1 * 2 ^ 16 + d2 * 2 ^ 8 + d3,
       d4,
       d5 * 2 ^ 56 + d6 * 2 ^ 48 + d7 * 2 ^ 40 + d8 * 2 ^ 32 + d9 * 2 ^ 24 + d10 * 2 ^ 16 +
         d11 * 2 ^ 8 + d12,
       d13 + d14 * 2 ^ 8 + d15 * 2 ^ 16 + d16 * 2 ^ 24 + d17 * 2 ^ 32) ∧
    get_all_history_v4 (blocks ++ sentinel :: more) =
      some (blocks.map get_history_v4_decode,
            (List.range (blocks.length + 1)).map (fun m => 2 :: intToBytesBE 4 m)) := by
  constructor
  · refine Prod.ext ?_ (Prod.ext rfl (Prod.ext ?_ ?_))
    · show (((0 * 256 + d0) * 256 + d1) * 256 + d2) * 256 + d3 =
          d0 * 2 ^ 24 + d1 * 2 ^ 16 + d2 * 2 ^ 8 + d3
      ring
    · show (((((((0 * 256 + d5) * 256 + d6) * 256 + d7) * 256 + d8) * 256 + d9) * 256 + d10) *
            256 + d11) * 256 + d12 =
          d5 * 2 ^ 56 + d6 * 2 ^ 48 + d7 * 2 ^ 40 + d8 * 2 ^ 32 + d9 * 2 ^ 24 + d10 * 2 ^ 16 +
            d11 * 2 ^ 8 + d12
      ring
    · show d13 + (d14 + (d15 + (d16 + (d17 + 0 * 256) * 256) * 256) * 256) * 256 =
          d13 + d14 * 2 ^ 8 + d15 * 2 ^ 16 + d16 * 2 ^ 24 + d17 * 2 ^ 32
      ring
  · show get_all_history_v4_loop (blocks ++ sentinel :: more) 0 [] [] = _
    rw [get_all_history_v4_loop_spec blocks sentinel more 0 [] [] hb hs]
    simp [List.range_eq_range']

/-- Witness for C2: a concrete block and a one-entry read-out ending in an
18-zero-byte sentinel block. -/
theorem c2_get_all_history_v4_spec_witness :
    get_history_v4_decode
        (1::2::3::4::5::6::7::8::9::10::11::12::13::14::15::16::17::18::([] : List Nat)) =
      (1 * 2 ^ 24 + 2 * 2 ^ 16 + 3 * 2 ^ 8 + 4,
       5,
       6 * 2 ^ 56 + 7 * 2 ^ 48 + 8 * 2 ^ 40 + 9 * 2 ^ 32 + 10 * 2 ^ 24 + 11 * 2 ^ 16 +
         12 * 2 ^ 8 + 13,
       14 + 15 * 2 ^ 8 + 16 * 2 ^ 16 + 17 * 2 ^ 24 + 18 * 2 ^ 32) ∧
    get_all_history_v4 ([[1]] ++ List.replicate 18 0 :: []) =
      some (([[1]] : List (List Nat)).map get_history_v4_decode,
            (List.range (([[1]] : List (List Nat)).length + 1)).map
              (fun m => 2 :: intToBytesBE 4 m)) :=
  c2_get_all_history_v4_spec 1 2 3 4 5 6 7 8 9 10 11 12 13 14 15 16 17 18 []
    [[1]] (List.replicate 18 0) [] (by decide) (by decide)

/-- Claim C3: whenever the status response has byte 0 equal to `0x01`,
`get_status_v3` reports `locked = true`, `paused = true` and
`auto_pause_time = 0` whatever bytes 1-3 hold, and the `setup` caching step
copies exactly those three values into the client state. -/
theorem c3_locked_status_forces_paused (data : List Nat) (s : ClientState)
    (h : data.getD 0 0 = 1) :
    get_status_v3 data = { locked := true, paused := true, auto_pause_time := 0 } ∧
    setup_cache_status s (get_status_v3 data) =
      { s with locked := true, paused := true, auto_pause_time := 0 } := by
  have h' : data[0]?.getD 0 = 1 := by simpa [List.getD] using h
  have h1 : get_status_v3 data = { locked := true, paused := true, auto_pause_time := 0 } := by
    simp [get_status_v3, h']
  exact ⟨h1, by rw [h1]; rfl⟩

/-- Witness for C3 at the status read-back `[1, 99, 99, 99]` (locked, with
junk in bytes 1-3) and the freshly initialised client state. -/
theorem c3_locked_status_forces_paused_witness :
    get_status_v3 [1, 99, 99, 99] = { locked := true, paused := true, auto_pause_time := 0 } ∧
    setup_cache_status initClientState (get_status_v3 [1, 99, 99, 99]) =
      { initClientState with locked := true, paused := true, auto_pause_time := 0 } :=
  c3_locked_status_forces_paused [1, 99, 99, 99] initClientState (by decide)

/-- Claim C4, counterexample: `disconnect` CAN raise.  With an active facet
notification subscription and a transport error in the `stop_notify` call
made by `unregister_notify_facet_v3`, the error propagates out of
`disconnect`, because the three `unregister_notify_*` calls are outside the
try/except blocks that guard the rest of the teardown. -/
theorem c4_disconnect_raises_counterexample :
    disconnect
      { stop_notify_facet := true, stop_notify_event := false,
        stop_notify_history := false, transport_disconnect := false }
      { initClientState with connected := true, logged := true, facet_notify_active := true } =
      Except.error PyErr.transportError := by
  rfl

/-- Claim C4, amended: only the facet-callback `stop_notify` and the final
transport `disconnect()` are best-effort; `disconnect` completes without
raising provided it is connected and each ACTIVE notification channel can be
unregistered (the session is logged in and that channel's `stop_notify` does
not fail) — the faults of the two guarded steps are arbitrary. -/
theorem c4_disconnect_guarded_teardown (t : TransportFaults) (s : ClientState)
    (hc : s.connected = true)
    (hf : s.facet_notify_active = true → s.logged = true ∧ t.stop_notify_facet = false)
    (he : s.event_notify_active = true → s.logged = true ∧ t.stop_notify_event = false)
    (hh : s.history_notify_active = true → s.logged = true ∧ t.stop_notify_history = false) :
    disconnect t s =
      Except.ok { s with facet_notify_active := false, event_notify_active := false,
                         history_notify_active := false } := by
  obtain ⟨c, l, fcb, fa, ea, ha, p, lk, apt, cf⟩ := s
  simp only at hc hf he hh
  subst hc
  cases fa <;> cases ea <;> cases ha <;>
    simp_all [disconnect, unregister_notify_facet_v3, unregister_notify_event_v4,
      unregister_notify_history_v4]

/-- Witness for C4's amended theorem: the facet channel is active and can be
unregistered, while the guarded final transport `disconnect()` fails; the
teardown still completes. -/
theorem c4_disconnect_guarded_teardown_witness :
    disconnect
      { stop_notify_facet := false, stop_notify_event := false,
        stop_notify_history := false, transport_disconnect := true }
      { initClientState with connected := true, logged := true, facet_notify_active := true } =
      Except.ok
        { initClientState with
          connected := true
          logged := true
          facet_notify_active := false
          event_notify_active := false
          history_notify_active := false } :=
  c4_disconnect_guarded_teardown
    { stop_notify_facet := false, stop_notify_event := false,
      stop_notify_history := false, transport_disconnect := true }
    { initClientState with connected := true, logged := true, facet_notify_active := true }
    rfl (fun _ => ⟨rfl, rfl⟩) (fun h => by cases h) (fun h => by cases h)

/-- Claim C5, counterexample: after a `setup` under firmware version 3
(< 3.47), the v4-only operation `get_time` is not bound to any attribute at
all, so calling it fails with Python's `AttributeError` — not with the
deprecated-function or unimplemented-function error the claim expects. -/
theorem c5_legacy_v4_op_absent_counterexample :
    setup_bindings 3 OpName.get_time = Binding.absent ∧
    call_binding (setup_bindings 3 OpName.get_time) = Except.error PyErr.attributeError ∧
    call_binding (setup_bindings 3 OpName.get_time) ≠ Except.error PyErr.deprecatedFunction ∧
    call_binding (setup_bindings 3 OpName.get_time) ≠ Except.error PyErr.unimplementedFunction := by
  have h : ¬ ((3 : ℚ) ≥ 3.47) := by norm_num
  have habs : setup_bindings 3 OpName.get_time = Binding.absent := by
    unfold setup_bindings
    rw [if_neg h]
  refine ⟨habs, ?_, ?_, ?_⟩ <;> rw [habs] <;> simp [call_binding]

/-- Claim C5, amended: for firmware version ≥ 3.47 the calibration-version
operations are bound to the `deprecated_function` stub (so calling them
raises the deprecated-function error) and every v4-only operation is bound
and callable; for firmware version < 3.47 the v4-only operations are left
unbound, so calling them raises `AttributeError` rather than the
deprecated/unimplemented-function error. -/
theorem c5_version_dispatch_amended (fw : ℚ) (op : OpName) (hv4 : isV4Only op = true) :
    (fw ≥ 3.47 →
      setup_bindings fw OpName.get_calibration_version = Binding.deprecatedStub ∧
      setup_bindings fw OpName.set_calibration_version = Binding.deprecatedStub ∧
      call_binding (setup_bindings fw OpName.get_calibration_version) =
        Except.error PyErr.deprecatedFunction ∧
      call_binding (setup_bindings fw OpName.set_calibration_version) =
        Except.error PyErr.deprecatedFunction ∧
      binding_callable (setup_bindings fw op) = true) ∧
    (¬ fw ≥ 3.47 →
      setup_bindings fw op = Binding.absent ∧
      call_binding (setup_bindings fw op) = Except.error PyErr.attributeError) := by
  constructor
  · intro h
    unfold setup_bindings
    simp only [h, if_true]
    refine ⟨by trivial, by trivial, by trivial, by trivial, ?_⟩
    cases op <;> simp_all [isV4Only, binding_callable, call_binding]
  · intro h
    unfold setup_bindings
    simp only [h, if_false]
    cases op <;> simp_all [isV4Only, call_binding]

/-- Witness for C5's amended theorem at firmware versions 3.5 (current
branch, with `get_time`) and 3 (legacy branch, with `get_history`). -/
theorem c5_version_dispatch_amended_witness :
    (setup_bindings 3.5 OpName.get_calibration_version = Binding.deprecatedStub ∧
     setup_bindings 3.5 OpName.set_calibration_version = Binding.deprecatedStub ∧
     call_binding (setup_bindings 3.5 OpName.get_calibration_version) =
       Except.error PyErr.deprecatedFunction ∧
     call_binding (setup_bindings 3.5 OpName.set_calibration_version) =
       Except.error PyErr.deprecatedFunction ∧
     binding_callable (setup_bindings 3.5 OpName.get_time) = true) ∧
    (setup_bindings 3 OpName.get_history = Binding.absent ∧
     call_binding (setup_bindings 3 OpName.get_history) = Except.error PyErr.attributeError) :=
  ⟨(c5_version_dispatch_amended 3.5 OpName.get_time rfl).1 (by norm_num),
   (c5_version_dispatch_amended 3 OpName.get_history rfl).2 (by norm_num)⟩

/-- Claim C6, counterexample: a pause (resp. lock) command whose verification
read-back reports failure (`write_command` returns `False`) still updates the
cached `paused` (resp. `locked`) field, because the boolean result of
`write_command` is discarded: starting from `paused = false` with a failing
read-back, requesting `paused = true` leaves the cache at `true`. -/
theorem c6_cache_updated_despite_failure_counterexample :
    write_command [6, 1] [6, 0] true = false ∧
    set_paused_v3 { initClientState with logged := true } [6, 0] true false =
      Except.ok ({ initClientState with logged := true, paused := true }, true) ∧
    ({ initClientState with logged := true } : ClientState).paused = false ∧
    write_command [4, 1] [4, 0] true = false ∧
    set_lock_v3 { initClientState with logged := true } [4, 0] true false =
      Except.ok ({ initClientState with logged := true, locked := true }, true) ∧
    ({ initClientState with logged := true } : ClientState).locked = false :=
  ⟨rfl, rfl, rfl, rfl, rfl, rfl⟩

/-- Claim C6, amended: whenever the pause / lock command is issued (`force`
or the requested state differs from the cache), the cached field is set to
the REQUESTED state unconditionally — in particular even when the
verification read-back reports failure — since `write_command`'s boolean
result is discarded. -/
theorem c6_cache_follows_request (s : ClientState) (readback : List Nat) (state force : Bool)
    (hl : s.logged = true)
    (hp : (force || state != s.paused) = true)
    (hpf : write_command (if state then [6, 1] else [6, 2]) readback true = false)
    (hlk : (force || state != s.locked) = true)
    (hlf : write_command (if state then [4, 1] else [4, 2]) readback true = false) :
    set_paused_v3 s readback state force = Except.ok ({ s with paused := state }, state) ∧
    set_lock_v3 s readback state force = Except.ok ({ s with locked := state }, state) := by
  constructor
  · simp [set_paused_v3, hl, hp]
  · simp [set_lock_v3, hl, hlk]

/-- Witness for C6's amended theorem: logged in, cache initially `false`,
requested state `true`, read-back `[0, 0]` (which fails verification for
both commands). -/
theorem c6_cache_follows_request_witness :
    set_paused_v3 { initClientState with logged := true } [0, 0] true false =
      Except.ok ({ { initClientState with logged := true } with paused := true }, true) ∧
    set_lock_v3 { initClientState with logged := true } [0, 0] true false =
      Except.ok ({ { initClientState with logged := true } with locked := true }, true) :=
  c6_cache_follows_request { initClientState with logged := true } [0, 0] true false
    rfl rfl rfl rfl rfl

end TimeFlip
